import Mathlib

/-!
Verification of the geozero excerpt: the SVG conversion entry points
(`src/geozero/src/svg/mod.rs`) and the GeoPackage sqlx adapters
(`src/geozero-core/src/geopackage.rs`), over a shallow embedding of the
event-protocol walk.  Parts of the crate that the excerpt only calls
(the `SvgWriter` sink, the `GeozeroGeometry` walkers, the error enum
variants used by sinks, `wkb::process_gpkg_geom`) are modelled from the
specification, as marked on each definition.
-/

namespace Geozero

/-- Error type of the core crate.  The `Geometry` variant and its use for the
UTF-8 validation failure are taken from the visible call sites in
`src/geozero/src/svg/mod.rs` (`GeozeroError::Geometry("Invalid UTF-8 encoding")`).
Modelled from the spec: the remaining kinds of section 7 — a sink rejecting a
call (`SinkError`) and malformed source bytes (`DecodeError`) — are distinct
variants, since the sink and decoder code is not part of the excerpt. -/
inductive GeozeroError where
  | Geometry (msg : String)
  | SinkError (msg : String)
  | DecodeError (msg : String)
deriving DecidableEq, Repr

/-- Geometry-level events of the event protocol (spec section 4.1):
`geometry_begin`/`geometry_end` bracket one geometry node, `ring_begin`/
`ring_end` bracket polygon rings, `coordinate` delivers one coordinate tuple.
Coordinate components are modelled as integers. -/
inductive GeomEvent where
  | geometryBegin (kind : String) (dim : Nat) (srid : Option Int)
  | geometryEnd
  | ringBegin
  | ringEnd
  | coordinate (xs : List Int)
deriving DecidableEq, Repr

/-- A protocol call issued to a sink: the feature/dataset bracketing calls of
`FeatureProcessor`, the `set_dimensions` sizing call of the SVG writer
(present in the interface, commented out at the call site in
`to_svg_document`), and the geometry-level events. -/
inductive Event where
  | datasetBegin (name : Option String)
  | datasetEnd
  | featureBegin (idx : Nat)
  | featureEnd (idx : Nat)
  | setDimensions (xmin ymin xmax ymax width height : Int)
  | geom (e : GeomEvent)
deriving DecidableEq, Repr

/-- A sink implementing the event protocol (the `FeatureProcessor` interface):
each call takes the sink state and returns the updated state or an error.
`output` retrieves the byte buffer the sink has accumulated. -/
structure Sink (σ : Type) where
  datasetBegin : σ → Option String → Except GeozeroError σ
  datasetEnd : σ → Except GeozeroError σ
  featureBegin : σ → Nat → Except GeozeroError σ
  featureEnd : σ → Nat → Except GeozeroError σ
  setDimensions : σ → Int → Int → Int → Int → Int → Int → Except GeozeroError σ
  processEvent : σ → GeomEvent → Except GeozeroError σ
  output : σ → List Nat

/-- Emit a list of geometry events into a sink, recording each issued call in
the trace and aborting on the first sink failure (spec section 4.1: a failure
from any call immediately aborts the walk, no further calls are issued). -/
def emitEvents {σ : Type} (s : Sink σ) :
    List GeomEvent → σ → List Event → Except GeozeroError σ × List Event
  | [], st, tr => (.ok st, tr)
  | e :: es, st, tr =>
    match s.processEvent st e with
    | .error err => (.error err, tr ++ [Event.geom e])
    | .ok st2 => emitEvents s es st2 (tr ++ [Event.geom e])

/-- Modelled from the spec: a `GeozeroGeometry` is characterised by its
`process_geom` behaviour (spec section 4.2) — it emits the geometry's
canonical event sequence into the sink; a source-side failure after some
prefix of the emission is represented by a shorter event list together with
`srcErr = some e`. -/
structure Geom where
  events : List GeomEvent
  srcErr : Option GeozeroError
deriving DecidableEq, Repr

/-- `process_geom`: drive the sink with the geometry's events; a sink failure
aborts with that error, and a source-side failure surfaces after the emitted
prefix. -/
def processGeom {σ : Type} (s : Sink σ) (g : Geom) (st : σ) (tr : List Event) :
    Except GeozeroError σ × List Event :=
  match emitEvents s g.events st tr with
  | (.error e, tr2) => (.error e, tr2)
  | (.ok st2, tr2) =>
    match g.srcErr with
    | some e => (.error e, tr2)
    | none => (.ok st2, tr2)

/-- The walk performed by `ToSvg::to_svg` (svg/mod.rs lines 41-48): the
geometry's events only, with no dataset or feature bracketing calls. -/
def toSvgRun {σ : Type} (s : Sink σ) (g : Geom) (st : σ) :
    Except GeozeroError σ × List Event :=
  processGeom s g st []

/-- The walk performed by `ToSvg::to_svg_document` (svg/mod.rs lines 49-61):
`dataset_begin(None)`, `feature_begin(0)`, the geometry's events,
`feature_end(0)`, `dataset_end`, each `?`-propagated; the `set_dimensions`
call of line 52 is commented out in the source and hence absent. -/
def toSvgDocumentRun {σ : Type} (s : Sink σ) (g : Geom) (st : σ) :
    Except GeozeroError σ × List Event :=
  match s.datasetBegin st none with
  | .error e => (.error e, [Event.datasetBegin none])
  | .ok st1 =>
    match s.featureBegin st1 0 with
    | .error e => (.error e, [Event.datasetBegin none, Event.featureBegin 0])
    | .ok st2 =>
      match processGeom s g st2 [Event.datasetBegin none, Event.featureBegin 0] with
      | (.error e, tr) => (.error e, tr)
      | (.ok st3, tr) =>
        match s.featureEnd st3 0 with
        | .error e => (.error e, tr ++ [Event.featureEnd 0])
        | .ok st4 =>
          match s.datasetEnd st4 with
          | .error e => (.error e, tr ++ [Event.featureEnd 0, Event.datasetEnd])
          | .ok st5 => (.ok st5, tr ++ [Event.featureEnd 0, Event.datasetEnd])

/-- Is `b` a UTF-8 continuation byte (0x80..0xBF)? -/
def isCont (b : Nat) : Bool := 0x80 ≤ b && b ≤ 0xBF

/-- Decode one UTF-8 code point from the front of the cursor: the accepted
lead/continuation byte ranges of RFC 3629 (as enforced by
`String::from_utf8`), returning the decoded character and the remaining
bytes. -/
def utf8Step : List Nat → Option (Char × List Nat)
  | [] => none
  | b :: rest =>
    if b < 0x80 then some (Char.ofNat b, rest)
    else if 0xC2 ≤ b ∧ b ≤ 0xDF then
      match rest with
      | c1 :: r2 =>
        if isCont c1 then some (Char.ofNat ((b - 0xC0) * 64 + (c1 - 0x80)), r2)
        else none
      | [] => none
    else if b = 0xE0 then
      match rest with
      | c1 :: c2 :: r2 =>
        if (0xA0 ≤ c1 && c1 ≤ 0xBF) && isCont c2 then
          some (Char.ofNat ((b - 0xE0) * 4096 + (c1 - 0x80) * 64 + (c2 - 0x80)), r2)
        else none
      | _ => none
    else if 0xE1 ≤ b ∧ b ≤ 0xEC then
      match rest with
      | c1 :: c2 :: r2 =>
        if isCont c1 && isCont c2 then
          some (Char.ofNat ((b - 0xE0) * 4096 + (c1 - 0x80) * 64 + (c2 - 0x80)), r2)
        else none
      | _ => none
    else if b = 0xED then
      match rest with
      | c1 :: c2 :: r2 =>
        if (0x80 ≤ c1 && c1 ≤ 0x9F) && isCont c2 then
          some (Char.ofNat ((b - 0xE0) * 4096 + (c1 - 0x80) * 64 + (c2 - 0x80)), r2)
        else none
      | _ => none
    else if 0xEE ≤ b ∧ b ≤ 0xEF then
      match rest with
      | c1 :: c2 :: r2 =>
        if isCont c1 && isCont c2 then
          some (Char.ofNat ((b - 0xE0) * 4096 + (c1 - 0x80) * 64 + (c2 - 0x80)), r2)
        else none
      | _ => none
    else if b = 0xF0 then
      match rest with
      | c1 :: c2 :: c3 :: r2 =>
        if (0x90 ≤ c1 && c1 ≤ 0xBF) && (isCont c2 && isCont c3) then
          some (Char.ofNat ((b - 0xF0) * 262144 + (c1 - 0x80) * 4096 +
            (c2 - 0x80) * 64 + (c3 - 0x80)), r2)
        else none
      | _ => none
    else if 0xF1 ≤ b ∧ b ≤ 0xF3 then
      match rest with
      | c1 :: c2 :: c3 :: r2 =>
        if isCont c1 && (isCont c2 && isCont c3) then
          some (Char.ofNat ((b - 0xF0) * 262144 + (c1 - 0x80) * 4096 +
            (c2 - 0x80) * 64 + (c3 - 0x80)), r2)
        else none
      | _ => none
    else if b = 0xF4 then
      match rest with
      | c1 :: c2 :: c3 :: r2 =>
        if (0x80 ≤ c1 && c1 ≤ 0x8F) && (isCont c2 && isCont c3) then
          some (Char.ofNat ((b - 0xF0) * 262144 + (c1 - 0x80) * 4096 +
            (c2 - 0x80) * 64 + (c3 - 0x80)), r2)
        else none
      | _ => none
    else none

/-- Decode a whole byte list, `fuel` bounding the number of code points (one
code point consumes at least one byte, so the list length is enough fuel). -/
def utf8DecodeAux : Nat → List Nat → Option (List Char)
  | _, [] => some []
  | 0, _ :: _ => none
  | fuel + 1, b :: rest =>
    match utf8Step (b :: rest) with
    | none => none
    | some (c, r2) => (utf8DecodeAux fuel r2).map (fun cs => c :: cs)

/-- UTF-8 decoding of a byte list, `none` on invalid input: the embedding of
`String::from_utf8` applied by every conversion entry point to the bytes the
walk produced. -/
def utf8Decode? (l : List Nat) : Option (List Char) :=
  utf8DecodeAux l.length l

/-- The final step of every text conversion entry point:
`String::from_utf8(svg_data).map_err(|_| GeozeroError::Geometry("Invalid UTF-8 encoding"))`. -/
def stringFromUtf8 (l : List Nat) : Except GeozeroError String :=
  match utf8Decode? l with
  | some cs => .ok (String.mk cs)
  | none => .error (GeozeroError.Geometry "Invalid UTF-8 encoding")

/-- `ToSvg::to_svg`, generic in the sink: fresh buffer, walk the bare
geometry, then UTF-8-validate the produced bytes. -/
def toSvgWith {σ : Type} (s : Sink σ) (g : Geom) (st : σ) :
    Except GeozeroError String :=
  match toSvgRun s g st with
  | (.error e, _) => .error e
  | (.ok st2, _) => stringFromUtf8 (s.output st2)

/-- `ToSvg::to_svg_document`, generic in the sink: fresh buffer, the
dataset/feature-wrapped walk, then UTF-8 validation. -/
def toSvgDocumentWith {σ : Type} (s : Sink σ) (g : Geom) (st : σ) :
    Except GeozeroError String :=
  match toSvgDocumentRun s g st with
  | (.error e, _) => .error e
  | (.ok st2, _) => stringFromUtf8 (s.output st2)

/-- Digits of `n` in decimal as ASCII byte values, with `fuel` bounding the
recursion depth. -/
def natDigitsAux : Nat → Nat → List Nat
  | 0, _ => []
  | fuel + 1, n => if n = 0 then [] else natDigitsAux fuel (n / 10) ++ [48 + n % 10]

/-- ASCII bytes of a natural number in decimal. -/
def natAscii (n : Nat) : List Nat :=
  if n = 0 then [48] else natDigitsAux (n + 1) n

/-- ASCII bytes of an integer in decimal (with a leading minus sign byte). -/
def intAscii (i : Int) : List Nat :=
  if i < 0 then 45 :: natAscii i.natAbs else natAscii i.natAbs

/-- The byte value of one character of a markup string constant; the constants
the writer uses are ASCII, reflected by the reduction modulo 128. -/
def asciiByte (c : Char) : Nat := c.toNat % 128

/-- Bytes of a markup string constant. -/
def asciiBytes (s : String) : List Nat := s.data.map asciiByte

/-- Bytes emitted for one coordinate tuple; when the writer was configured
with `invert_y` the second component is emitted negated. -/
def coordBytes (invertY : Bool) (xs : List Int) : List Nat :=
  let ys :=
    match invertY, xs with
    | true, x :: y :: rest => x :: (-y) :: rest
    | _, _ => xs
  ys.flatMap (fun v => intAscii v ++ [32])

/-- Modelled from the spec: the SVG text emitter is out of scope and treated
as "accepts geometry-event calls and appends to an output buffer"; each call
appends a chunk of ASCII markup bytes, coordinate content included. -/
def svgEventBytes (invertY : Bool) : Event → List Nat
  | .datasetBegin _ => asciiBytes "<svg xmlns=\"http://www.w3.org/2000/svg\" version=\"1.1\">"
  | .datasetEnd => asciiBytes "</svg>"
  | .featureBegin _ => asciiBytes "<g>"
  | .featureEnd _ => asciiBytes "</g>"
  | .setDimensions a b c d w h =>
    asciiBytes "<view " ++ coordBytes false [a, b, c, d, w, h] ++ asciiBytes ">"
  | .geom (.geometryBegin _ _ _) => asciiBytes "<path d=\""
  | .geom .geometryEnd => asciiBytes "\"/>"
  | .geom .ringBegin => asciiBytes "M "
  | .geom .ringEnd => asciiBytes "Z "
  | .geom (.coordinate xs) => coordBytes invertY xs

/-- Modelled from the spec: the `SvgWriter` sink over an in-memory byte
buffer (`Vec<u8>`), as constructed by `SvgWriter::new(&mut svg_data, false)`.
Writing to a memory buffer cannot fail, so every call succeeds and appends
its markup chunk. -/
def svgWriter (invertY : Bool) : Sink (List Nat) where
  datasetBegin := fun st n => .ok (st ++ svgEventBytes invertY (.datasetBegin n))
  datasetEnd := fun st => .ok (st ++ svgEventBytes invertY .datasetEnd)
  featureBegin := fun st i => .ok (st ++ svgEventBytes invertY (.featureBegin i))
  featureEnd := fun st i => .ok (st ++ svgEventBytes invertY (.featureEnd i))
  setDimensions := fun st a b c d w h =>
    .ok (st ++ svgEventBytes invertY (.setDimensions a b c d w h))
  processEvent := fun st e => .ok (st ++ svgEventBytes invertY (.geom e))
  output := fun st => st

/-- `ToSvg::to_svg` (svg/mod.rs lines 41-48): fresh empty buffer, fresh
writer with `invert_y = false`, bare geometry walk, UTF-8 validation. -/
def to_svg (g : Geom) : Except GeozeroError String :=
  toSvgWith (svgWriter false) g []

/-- `ToSvg::to_svg_document` (svg/mod.rs lines 49-61): fresh empty buffer,
fresh writer with `invert_y = false`, dataset/feature-wrapped walk, UTF-8
validation. -/
def to_svg_document (g : Geom) : Except GeozeroError String :=
  toSvgDocumentWith (svgWriter false) g []

/-- Modelled from the spec: a `GeozeroDatasource` is characterised by its
`process` behaviour (spec section 4.3) — the full event sequence it drives
into the sink, dataset and feature bracketing included, with a source-side
failure after the emission represented by `srcErr`. -/
structure Datasource where
  events : List Event
  srcErr : Option GeozeroError
deriving DecidableEq, Repr

/-- Dispatch one protocol call to the sink. -/
def applyEvent {σ : Type} (s : Sink σ) (st : σ) : Event → Except GeozeroError σ
  | .datasetBegin n => s.datasetBegin st n
  | .datasetEnd => s.datasetEnd st
  | .featureBegin i => s.featureBegin st i
  | .featureEnd i => s.featureEnd st i
  | .setDimensions a b c d w h => s.setDimensions st a b c d w h
  | .geom e => s.processEvent st e

/-- Emit a list of protocol calls into a sink, aborting on the first
failure. -/
def emitAll {σ : Type} (s : Sink σ) :
    List Event → σ → List Event → Except GeozeroError σ × List Event
  | [], st, tr => (.ok st, tr)
  | e :: es, st, tr =>
    match applyEvent s st e with
    | .error err => (.error err, tr ++ [e])
    | .ok st2 => emitAll s es st2 (tr ++ [e])

/-- The walk performed by `GeozeroDatasource::process` into a sink. -/
def processRun {σ : Type} (s : Sink σ) (d : Datasource) (st : σ) :
    Except GeozeroError σ × List Event :=
  match emitAll s d.events st [] with
  | (.error e, tr) => (.error e, tr)
  | (.ok st2, tr) =>
    match d.srcErr with
    | some e => (.error e, tr)
    | none => (.ok st2, tr)

/-- `ProcessToSvg::to_svg` (svg/mod.rs lines 70-79), generic in the sink:
fresh buffer, datasource walk, UTF-8 validation. -/
def processToSvgWith {σ : Type} (s : Sink σ) (d : Datasource) (st : σ) :
    Except GeozeroError String :=
  match processRun s d st with
  | (.error e, _) => .error e
  | (.ok st2, _) => stringFromUtf8 (s.output st2)

/-- `ProcessToSvg::to_svg` at the concrete writer. -/
def processToSvg (d : Datasource) : Except GeozeroError String :=
  processToSvgWith (svgWriter false) d []

/-- Modelled from the spec: a `GeozeroDatasourceReader` is characterised by
the event sequence its `read` drives into the sink from the byte reader. -/
structure Reader where
  events : List Event
  srcErr : Option GeozeroError
deriving DecidableEq, Repr

/-- The walk performed by `GeozeroDatasourceReader::read` into a sink. -/
def readRun {σ : Type} (s : Sink σ) (r : Reader) (st : σ) :
    Except GeozeroError σ × List Event :=
  match emitAll s r.events st [] with
  | (.error e, tr) => (.error e, tr)
  | (.ok st2, tr) =>
    match r.srcErr with
    | some e => (.error e, tr)
    | none => (.ok st2, tr)

/-- `ReadAsSvg::read_as_svg` (svg/mod.rs lines 87-96), generic in the sink:
fresh buffer, reader walk, UTF-8 validation. -/
def readAsSvgWith {σ : Type} (s : Sink σ) (r : Reader) (st : σ) :
    Except GeozeroError String :=
  match readRun s r st with
  | (.error e, _) => .error e
  | (.ok st2, _) => stringFromUtf8 (s.output st2)

/-- `ReadAsSvg::read_as_svg` at the concrete writer. -/
def read_as_svg (r : Reader) : Except GeozeroError String :=
  readAsSvgWith (svgWriter false) r []

/-- Modelled from the spec: the in-memory geometry value built by the
`RustGeo` / `Geos` builder sinks from the decoded events; the modelled wire
format covers the leaf kinds Point and LineString, with coordinate components
as 64-bit unsigned words. -/
inductive GeomValue where
  | point (x y : Nat)
  | lineString (pts : List (Nat × Nat))
deriving DecidableEq, Repr

/-- Little-endian 4-byte encoding of `n % 2^32`. -/
def le32 (n : Nat) : List Nat :=
  [n % 256, n / 256 % 256, n / 65536 % 256, n / 16777216 % 256]

/-- Little-endian 8-byte encoding of `n % 2^64`. -/
def le64 (n : Nat) : List Nat :=
  le32 n ++ le32 (n / 4294967296)

/-- Modelled from the spec: the GeoPackage envelope header — magic bytes
"GP", a version byte, a flags byte (0: little-endian, no envelope bbox), and
the 4-byte SRID (spec glossary: byte order, kind tag, flags, optional
SRID). -/
def gpkgHeader (srid : Nat) : List Nat :=
  [0x47, 0x50, 0x00, 0x00] ++ le32 srid

/-- Modelled from the spec: the WKB body following the envelope — a
little-endian byte-order byte, a 4-byte kind tag, then the kind-specific
payload (coordinates, with a 4-byte point count for LineString). -/
def wkbBody : GeomValue → List Nat
  | .point x y => [1] ++ le32 1 ++ le64 x ++ le64 y
  | .lineString pts =>
    [1] ++ le32 2 ++ le32 pts.length ++ pts.flatMap (fun p => le64 p.1 ++ le64 p.2)

/-- One envelope-prefixed geometry encoding: header followed by body. -/
def gpkgEncode (srid : Nat) (g : GeomValue) : List Nat :=
  gpkgHeader srid ++ wkbBody g

/-- Read a little-endian 4-byte value from the cursor. -/
def rd32 : List Nat → Option (Nat × List Nat)
  | b0 :: b1 :: b2 :: b3 :: rest =>
    some (b0 + 256 * b1 + 65536 * b2 + 16777216 * b3, rest)
  | _ => none

/-- Read a little-endian 8-byte value from the cursor. -/
def rd64 (l : List Nat) : Option (Nat × List Nat) :=
  match rd32 l with
  | none => none
  | some (lo, r1) =>
    match rd32 r1 with
    | none => none
    | some (hi, r2) => some (lo + 4294967296 * hi, r2)

/-- Read `n` coordinate pairs from the cursor. -/
def rdPoints : Nat → List Nat → Option (List (Nat × Nat) × List Nat)
  | 0, l => some ([], l)
  | n + 1, l =>
    match rd64 l with
    | none => none
    | some (x, l1) =>
      match rd64 l1 with
      | none => none
      | some (y, l2) =>
        match rdPoints n l2 with
        | none => none
        | some (ps, l3) => some ((x, y) :: ps, l3)

/-- Modelled from the spec: `wkb::process_gpkg_geom` — the binary-blob decode
entry point (spec section 6): it takes a byte cursor positioned at an
envelope-prefixed geometry encoding, validates the envelope, decodes one
geometry driving a builder sink, and returns the built geometry together with
the cursor positioned immediately after the consumed bytes; malformed input
yields a decode error. -/
def process_gpkg_geom (l : List Nat) : Except GeozeroError (GeomValue × List Nat) :=
  match l with
  | 0x47 :: 0x50 :: _version :: flags :: rest =>
    if flags ≠ 0 then .error (GeozeroError.DecodeError "unsupported envelope flags")
    else
      match rd32 rest with
      | none => .error (GeozeroError.DecodeError "truncated header")
      | some (_srid, r1) =>
        match r1 with
        | 1 :: r2 =>
          match rd32 r2 with
          | none => .error (GeozeroError.DecodeError "truncated geometry tag")
          | some (1, r3) =>
            match rd64 r3 with
            | none => .error (GeozeroError.DecodeError "truncated point")
            | some (x, r4) =>
              match rd64 r4 with
              | none => .error (GeozeroError.DecodeError "truncated point")
              | some (y, r5) => .ok (GeomValue.point x y, r5)
          | some (2, r3) =>
            match rd32 r3 with
            | none => .error (GeozeroError.DecodeError "truncated point count")
            | some (n, r4) =>
              match rdPoints n r4 with
              | none => .error (GeozeroError.DecodeError "truncated linestring")
              | some (pts, r5) => .ok (GeomValue.lineString pts, r5)
          | some (_, _) => .error (GeozeroError.DecodeError "unsupported geometry tag")
        | _ => .error (GeozeroError.DecodeError "unsupported byte order")
  | _ => .error (GeozeroError.DecodeError "invalid GeoPackage magic")

/-- Modelled from the spec: the sqlx error type as visible at the adapter
boundary — `Decode` wraps a column-decode failure (the variant constructed in
geopackage.rs lines 22 and 53); `Protocol` stands for any other sqlx error
kind, such as a failure of the underlying blob decode. -/
inductive SqlxError where
  | Decode (msg : String)
  | Protocol (msg : String)
deriving DecidableEq, Repr

/-- Modelled from the spec: `e.to_string()` on a `GeozeroError` — the
human-readable description each tagged error variant carries (spec
section 9). -/
def GeozeroError.describe : GeozeroError → String
  | .Geometry m => "Geometry error: " ++ m
  | .SinkError m => "Sink error: " ++ m
  | .DecodeError m => "Decode error: " ++ m

/-- Modelled from the spec: a SQLite column value as seen by
`<&[u8] as Decode<Sqlite>>::decode` — either the column's blob bytes or an
sqlx error from the database layer. -/
structure SqliteValue where
  bytes : Except SqlxError (List Nat)

/-- `<geo::Geometry as Decode<Sqlite>>::decode` (geopackage.rs lines 18-27):
decode the blob, run `process_gpkg_geom` into a `RustGeo` builder, and return
the built geometry; a decode failure is surfaced as
`sqlx::Error::Decode(e.to_string())`. -/
def geoGeometryDecode (v : SqliteValue) : Except SqlxError GeomValue :=
  match v.bytes with
  | .error e => .error e
  | .ok blob =>
    match process_gpkg_geom blob with
    | .error e => .error (SqlxError.Decode e.describe)
    | .ok (g, _) => .ok g

/-- `<geos::Geometry as Decode<Sqlite>>::decode` (geopackage.rs lines 49-58):
identical shape to the geo adapter, driving the `Geos` builder sink. -/
def geosGeometryDecode (v : SqliteValue) : Except SqlxError GeomValue :=
  match v.bytes with
  | .error e => .error e
  | .ok blob =>
    match process_gpkg_geom blob with
    | .error e => .error (SqlxError.Decode e.describe)
    | .ok (g, _) => .ok g

/-- Modelled from the spec: the SQLite column type descriptor returned by
`sqlx::Type::type_info`. -/
inductive SqliteTypeInfo where
  | blob
  | text
  | integer
  | real
  | null
deriving DecidableEq, Repr

/-- Modelled from the spec: `<Vec<u8> as sqlx::Type<Sqlite>>::type_info()` —
byte vectors are SQLite BLOB columns. -/
def vecU8TypeInfo : SqliteTypeInfo := SqliteTypeInfo.blob

/-- `<geo::Geometry as sqlx::Type<Sqlite>>::type_info` (geopackage.rs lines
11-15): delegates to `Vec<u8>`. -/
def geoGeometryTypeInfo : SqliteTypeInfo := vecU8TypeInfo

/-- `<geos::Geometry as sqlx::Type<Sqlite>>::type_info` (geopackage.rs lines
42-46): delegates to `Vec<u8>`. -/
def geosGeometryTypeInfo : SqliteTypeInfo := vecU8TypeInfo

/-! ### Trace lemmas for the event emitters -/

/-- Whatever happens, `emitEvents` only appends geometry events to the
trace. -/
lemma emitEvents_trace_shape {σ : Type} (s : Sink σ) (es : List GeomEvent)
    (st : σ) (tr : List Event) :
    ∃ pre : List GeomEvent, (emitEvents s es st tr).2 = tr ++ pre.map Event.geom := by
  induction es generalizing st tr with
  | nil => exact ⟨[], by simp [emitEvents]⟩
  | cons e es ih =>
    cases h : s.processEvent st e with
    | error err => exact ⟨[e], by simp [emitEvents, h]⟩
    | ok st2 =>
      obtain ⟨pre, hp⟩ := ih st2 (tr ++ [Event.geom e])
      exact ⟨e :: pre, by simp [emitEvents, h, hp]⟩

/-- On success, `emitEvents` has recorded exactly the given events, in
order. -/
lemma emitEvents_ok_trace {σ : Type} (s : Sink σ) (es : List GeomEvent)
    (st : σ) (tr : List Event) {st2 : σ} {tr2 : List Event}
    (h : emitEvents s es st tr = (.ok st2, tr2)) :
    tr2 = tr ++ es.map Event.geom := by
  induction es generalizing st tr with
  | nil =>
    simp only [emitEvents] at h
    cases h
    simp
  | cons e es ih =>
    cases hp : s.processEvent st e with
    | error err => simp [emitEvents, hp] at h
    | ok stm =>
      simp only [emitEvents, hp] at h
      have := ih stm (tr ++ [Event.geom e]) h
      simpa using this

/-- The modelled SVG writer never fails: emitting events always succeeds,
appends each event's markup chunk to the buffer, and records the events. -/
lemma emitEvents_svgWriter (iv : Bool) (es : List GeomEvent)
    (st : List Nat) (tr : List Event) :
    emitEvents (svgWriter iv) es st tr =
      (.ok (st ++ es.flatMap (fun e => svgEventBytes iv (Event.geom e))),
       tr ++ es.map Event.geom) := by
  induction es generalizing st tr with
  | nil => simp [emitEvents]
  | cons e es ih =>
    have hp : (svgWriter iv).processEvent st e =
        .ok (st ++ svgEventBytes iv (Event.geom e)) := rfl
    simp only [emitEvents, hp]
    rw [ih]
    simp [List.append_assoc]

/-- `processGeom` only appends geometry events to the trace. -/
lemma processGeom_trace_shape {σ : Type} (s : Sink σ) (g : Geom) (st : σ)
    (tr : List Event) :
    ∃ pre : List GeomEvent, (processGeom s g st tr).2 = tr ++ pre.map Event.geom := by
  obtain ⟨pre, hp⟩ := emitEvents_trace_shape s g.events st tr
  refine ⟨pre, ?_⟩
  unfold processGeom
  cases he : emitEvents s g.events st tr with
  | mk r tr2 =>
    rw [he] at hp
    cases r with
    | error e => simpa using hp
    | ok st2 =>
      cases g.srcErr <;> simpa using hp

/-- On success, `processGeom` has recorded exactly the geometry's events. -/
lemma processGeom_ok_trace {σ : Type} (s : Sink σ) (g : Geom) (st : σ)
    (tr : List Event) {st2 : σ} {tr2 : List Event}
    (h : processGeom s g st tr = (.ok st2, tr2)) :
    tr2 = tr ++ g.events.map Event.geom := by
  unfold processGeom at h
  cases he : emitEvents s g.events st tr with
  | mk r trm =>
    rw [he] at h
    cases r with
    | error e => simp at h
    | ok stm =>
      have ht := emitEvents_ok_trace s g.events st tr he
      cases hsrc : g.srcErr with
      | none =>
        rw [hsrc] at h
        simp only [Prod.mk.injEq, Except.ok.injEq] at h
        rw [← h.2]
        exact ht
      | some e =>
        rw [hsrc] at h
        simp at h

/-- `processGeom` at the modelled writer, for a geometry whose source does
not fail: success, with the geometry's chunks appended and its events
recorded. -/
lemma processGeom_svgWriter (iv : Bool) (g : Geom) (st : List Nat)
    (tr : List Event) (h : g.srcErr = none) :
    processGeom (svgWriter iv) g st tr =
      (.ok (st ++ g.events.flatMap (fun e => svgEventBytes iv (Event.geom e))),
       tr ++ g.events.map Event.geom) := by
  unfold processGeom
  rw [emitEvents_svgWriter, h]

/-! ### ASCII output of the modelled writer, and UTF-8 validity -/

lemma natDigitsAux_lt (fuel n : Nat) : ∀ b ∈ natDigitsAux fuel n, b < 128 := by
  induction fuel generalizing n with
  | zero => simp [natDigitsAux]
  | succ fuel ih =>
    intro b hb
    simp only [natDigitsAux] at hb
    by_cases hn : n = 0
    · simp [hn] at hb
    · rw [if_neg hn] at hb
      rcases List.mem_append.mp hb with h1 | h2
      · exact ih (n / 10) b h1
      · have : b = 48 + n % 10 := by simpa using h2
        have : n % 10 < 10 := Nat.mod_lt n (by norm_num)
        omega

lemma natAscii_lt (n : Nat) : ∀ b ∈ natAscii n, b < 128 := by
  intro b hb
  unfold natAscii at hb
  by_cases hn : n = 0
  · simp [hn] at hb
    omega
  · rw [if_neg hn] at hb
    exact natDigitsAux_lt (n + 1) n b hb

lemma intAscii_lt (i : Int) : ∀ b ∈ intAscii i, b < 128 := by
  intro b hb
  unfold intAscii at hb
  by_cases hi : i < 0
  · rw [if_pos hi] at hb
    rcases List.mem_cons.mp hb with h1 | h2
    · omega
    · exact natAscii_lt i.natAbs b h2
  · rw [if_neg hi] at hb
    exact natAscii_lt i.natAbs b hb

lemma asciiBytes_lt (s : String) : ∀ b ∈ asciiBytes s, b < 128 := by
  intro b hb
  simp only [asciiBytes, List.mem_map] at hb
  obtain ⟨c, _, hc⟩ := hb
  rw [← hc]
  exact Nat.mod_lt _ (by norm_num)

lemma coordBytes_lt (iv : Bool) (xs : List Int) : ∀ b ∈ coordBytes iv xs, b < 128 := by
  intro b hb
  simp only [coordBytes, List.mem_flatMap] at hb
  obtain ⟨v, _, hv⟩ := hb
  rcases List.mem_append.mp hv with h1 | h2
  · exact intAscii_lt v b h1
  · have : b = 32 := by simpa using h2
    omega

lemma svgEventBytes_lt (iv : Bool) (e : Event) : ∀ b ∈ svgEventBytes iv e, b < 128 := by
  intro b hb
  cases e with
  | datasetBegin n => exact asciiBytes_lt _ b hb
  | datasetEnd => exact asciiBytes_lt _ b hb
  | featureBegin i => exact asciiBytes_lt _ b hb
  | featureEnd i => exact asciiBytes_lt _ b hb
  | setDimensions a b2 c d w h =>
    simp only [svgEventBytes] at hb
    rcases List.mem_append.mp hb with h1 | h2
    · rcases List.mem_append.mp h1 with h3 | h4
      · exact asciiBytes_lt _ b h3
      · exact coordBytes_lt _ _ b h4
    · exact asciiBytes_lt _ b h2
  | geom ge =>
    cases ge with
    | geometryBegin k d sr => exact asciiBytes_lt _ b hb
    | geometryEnd => exact asciiBytes_lt _ b hb
    | ringBegin => exact asciiBytes_lt _ b hb
    | ringEnd => exact asciiBytes_lt _ b hb
    | coordinate xs => exact coordBytes_lt _ _ b hb

/-- On an ASCII byte, the UTF-8 step decodes that byte and consumes exactly
it. -/
lemma utf8Step_ascii (b : Nat) (rest : List Nat) (hb : b < 128) :
    utf8Step (b :: rest) = some (Char.ofNat b, rest) := by
  simp only [utf8Step]
  rw [if_pos hb]

/-- A byte list of ASCII bytes decodes successfully as UTF-8. -/
lemma utf8Decode?_ascii (l : List Nat) (h : ∀ b ∈ l, b < 128) :
    ∃ cs, utf8Decode? l = some cs := by
  suffices hgen : ∀ fuel l2, l2.length ≤ fuel → (∀ b ∈ l2, b < 128) →
      ∃ cs, utf8DecodeAux fuel l2 = some cs by
    exact hgen l.length l le_rfl h
  intro fuel
  induction fuel with
  | zero =>
    intro l2 hlen _
    match l2, hlen with
    | [], _ => exact ⟨[], rfl⟩
  | succ fuel ih =>
    intro l2 hlen hascii
    match l2 with
    | [] => exact ⟨[], rfl⟩
    | b :: rest =>
      have hb : b < 128 := hascii b (List.mem_cons_self b rest)
      obtain ⟨cs, hcs⟩ := ih rest (by simp at hlen; omega)
        (fun x hx => hascii x (List.mem_cons_of_mem b hx))
      refine ⟨Char.ofNat b :: cs, ?_⟩
      simp [utf8DecodeAux, utf8Step_ascii b rest hb, hcs]

/-- At the modelled writer, for a geometry whose source does not fail, the
document walk succeeds, appending the five markup sections to the buffer and
issuing exactly the wrapped call sequence. -/
lemma toSvgDocumentRun_svgWriter (iv : Bool) (g : Geom) (st : List Nat)
    (h : g.srcErr = none) :
    toSvgDocumentRun (svgWriter iv) g st =
      (.ok (st ++ svgEventBytes iv (Event.datasetBegin none)
          ++ svgEventBytes iv (Event.featureBegin 0)
          ++ g.events.flatMap (fun e => svgEventBytes iv (Event.geom e))
          ++ svgEventBytes iv (Event.featureEnd 0)
          ++ svgEventBytes iv Event.datasetEnd),
       [Event.datasetBegin none, Event.featureBegin 0] ++ g.events.map Event.geom
          ++ [Event.featureEnd 0, Event.datasetEnd]) := by
  have h1 : ∀ (b : List Nat) (n : Option String), (svgWriter iv).datasetBegin b n
      = .ok (b ++ svgEventBytes iv (Event.datasetBegin n)) := fun _ _ => rfl
  have h2 : ∀ (b : List Nat) (i : Nat), (svgWriter iv).featureBegin b i
      = .ok (b ++ svgEventBytes iv (Event.featureBegin i)) := fun _ _ => rfl
  have h3 : ∀ (b : List Nat) (i : Nat), (svgWriter iv).featureEnd b i
      = .ok (b ++ svgEventBytes iv (Event.featureEnd i)) := fun _ _ => rfl
  have h4 : ∀ (b : List Nat), (svgWriter iv).datasetEnd b
      = .ok (b ++ svgEventBytes iv Event.datasetEnd) := fun _ => rfl
  simp only [toSvgDocumentRun, h1, h2, h3, h4, processGeom_svgWriter iv g _ _ h]

/-- The six possible outcomes of the document walk, by where (if anywhere)
the first failure occurs; in each case the recorded trace stops at the
failing call. -/
lemma toSvgDocumentRun_cases {σ : Type} (s : Sink σ) (g : Geom) (st : σ) :
    (∃ e, toSvgDocumentRun s g st = (.error e, [Event.datasetBegin none])) ∨
    (∃ e, toSvgDocumentRun s g st =
      (.error e, [Event.datasetBegin none, Event.featureBegin 0])) ∨
    (∃ e, ∃ pre : List GeomEvent, toSvgDocumentRun s g st =
      (.error e, [Event.datasetBegin none, Event.featureBegin 0] ++ pre.map Event.geom)) ∨
    (∃ e, toSvgDocumentRun s g st =
      (.error e, [Event.datasetBegin none, Event.featureBegin 0]
        ++ g.events.map Event.geom ++ [Event.featureEnd 0])) ∨
    (∃ e, toSvgDocumentRun s g st =
      (.error e, [Event.datasetBegin none, Event.featureBegin 0]
        ++ g.events.map Event.geom ++ [Event.featureEnd 0, Event.datasetEnd])) ∨
    (∃ st2, toSvgDocumentRun s g st =
      (.ok st2, [Event.datasetBegin none, Event.featureBegin 0]
        ++ g.events.map Event.geom ++ [Event.featureEnd 0, Event.datasetEnd])) := by
  cases h1 : s.datasetBegin st none with
  | error e =>
    exact Or.inl ⟨e, by simp only [toSvgDocumentRun, h1]⟩
  | ok st1 =>
    cases h2 : s.featureBegin st1 0 with
    | error e =>
      exact Or.inr (Or.inl ⟨e, by simp only [toSvgDocumentRun, h1, h2]⟩)
    | ok st2 =>
      obtain ⟨pre, hpre⟩ := processGeom_trace_shape s g st2
        [Event.datasetBegin none, Event.featureBegin 0]
      cases h3 : processGeom s g st2 [Event.datasetBegin none, Event.featureBegin 0] with
      | mk r tr =>
        rw [h3] at hpre
        cases r with
        | error e =>
          refine Or.inr (Or.inr (Or.inl ⟨e, pre, ?_⟩))
          simp only [toSvgDocumentRun, h1, h2, h3]
          simpa using hpre
        | ok st3 =>
          have htr : tr = [Event.datasetBegin none, Event.featureBegin 0]
              ++ g.events.map Event.geom := processGeom_ok_trace s g st2 _ h3
          cases h4 : s.featureEnd st3 0 with
          | error e =>
            refine Or.inr (Or.inr (Or.inr (Or.inl ⟨e, ?_⟩)))
            simp only [toSvgDocumentRun, h1, h2, h3, h4]
            rw [htr]
          | ok st4 =>
            cases h5 : s.datasetEnd st4 with
            | error e =>
              refine Or.inr (Or.inr (Or.inr (Or.inr (Or.inl ⟨e, ?_⟩))))
              simp only [toSvgDocumentRun, h1, h2, h3, h4, h5]
              rw [htr]
            | ok st5 =>
              refine Or.inr (Or.inr (Or.inr (Or.inr (Or.inr ⟨st5, ?_⟩))))
              simp only [toSvgDocumentRun, h1, h2, h3, h4, h5]
              rw [htr]

/-- Bytes the writer appends for a geometry's events are ASCII. -/
lemma flatMap_svgEventBytes_ascii (iv : Bool) (es : List GeomEvent) :
    ∀ b ∈ es.flatMap (fun e => svgEventBytes iv (Event.geom e)), b < 128 := by
  intro b hb
  rcases List.mem_flatMap.mp hb with ⟨e, _, hbe⟩
  exact svgEventBytes_lt iv _ b hbe

/-! ### Claim theorems -/

/-- Claim C1: for every geometry (whose source emission succeeds), the
document conversion entry point `to_svg_document` wraps the geometry's event
sequence in exactly one implicit feature and one dataset: the issued call
trace is `dataset_begin(None)`, `feature_begin(0)`, the geometry's events,
`feature_end(0)`, `dataset_end`, in that order. -/
theorem to_svg_document_wraps_one_feature (g : Geom) (h : g.srcErr = none) :
    (toSvgDocumentRun (svgWriter false) g []).2 =
      [Event.datasetBegin none, Event.featureBegin 0] ++ g.events.map Event.geom
        ++ [Event.featureEnd 0, Event.datasetEnd] := by
  rw [toSvgDocumentRun_svgWriter false g [] h]

/-- Witness for C1 at a concrete Point geometry (x = 220, y = 10). -/
theorem to_svg_document_wraps_one_feature_witness :
    (toSvgDocumentRun (svgWriter false)
        ⟨[GeomEvent.geometryBegin "Point" 2 none, GeomEvent.coordinate [220, 10],
          GeomEvent.geometryEnd], none⟩ []).2 =
      [Event.datasetBegin none, Event.featureBegin 0,
       Event.geom (GeomEvent.geometryBegin "Point" 2 none),
       Event.geom (GeomEvent.coordinate [220, 10]),
       Event.geom GeomEvent.geometryEnd,
       Event.featureEnd 0, Event.datasetEnd] := by
  rw [to_svg_document_wraps_one_feature
    ⟨[GeomEvent.geometryBegin "Point" 2 none, GeomEvent.coordinate [220, 10],
      GeomEvent.geometryEnd], none⟩ rfl]
  rfl

/-- Claim C4: if any protocol call of the document walk fails, the walk
aborts immediately: the error is returned by `to_svg_document` with no
partial output string, and the issued trace stops at the failing call — in
particular a failure inside the geometry walk leaves no closing
`feature_end`/`dataset_end` in the trace. -/
theorem to_svg_document_abort_on_error {σ : Type} (s : Sink σ) (g : Geom)
    (st : σ) (e : GeozeroError) (tr : List Event)
    (h : toSvgDocumentRun s g st = (.error e, tr)) :
    toSvgDocumentWith s g st = .error e ∧
    (tr = [Event.datasetBegin none] ∨
     tr = [Event.datasetBegin none, Event.featureBegin 0] ∨
     (∃ pre : List GeomEvent,
        tr = [Event.datasetBegin none, Event.featureBegin 0] ++ pre.map Event.geom ∧
        Event.featureEnd 0 ∉ tr ∧ Event.datasetEnd ∉ tr) ∨
     tr = [Event.datasetBegin none, Event.featureBegin 0] ++ g.events.map Event.geom
        ++ [Event.featureEnd 0] ∨
     tr = [Event.datasetBegin none, Event.featureBegin 0] ++ g.events.map Event.geom
        ++ [Event.featureEnd 0, Event.datasetEnd]) := by
  constructor
  · unfold toSvgDocumentWith
    rw [h]
  · rcases toSvgDocumentRun_cases s g st with
      ⟨e2, hr⟩ | ⟨e2, hr⟩ | ⟨e2, pre, hr⟩ | ⟨e2, hr⟩ | ⟨e2, hr⟩ | ⟨st2, hr⟩ <;>
      rw [h] at hr <;> simp only [Prod.mk.injEq, Except.error.injEq] at hr
    · exact Or.inl hr.2
    · exact Or.inr (Or.inl hr.2)
    · refine Or.inr (Or.inr (Or.inl ⟨pre, hr.2, ?_, ?_⟩)) <;> rw [hr.2] <;> simp
    · exact Or.inr (Or.inr (Or.inr (Or.inl hr.2)))
    · exact Or.inr (Or.inr (Or.inr (Or.inr hr.2)))
    · exact absurd hr (by simp)

/-- A sink whose `dataset_begin` rejects the call, to exhibit the abort
behaviour. -/
def rejectingSink : Sink Unit where
  datasetBegin := fun _ _ => .error (GeozeroError.SinkError "rejected dataset_begin")
  datasetEnd := fun st => .ok st
  featureBegin := fun st _ => .ok st
  featureEnd := fun st _ => .ok st
  setDimensions := fun st _ _ _ _ _ _ => .ok st
  processEvent := fun st _ => .ok st
  output := fun _ => []

/-- Witness for C4: the rejecting sink aborts the document walk at the very
first call. -/
theorem to_svg_document_abort_on_error_witness :
    toSvgDocumentWith rejectingSink ⟨[GeomEvent.geometryEnd], none⟩ () =
      .error (GeozeroError.SinkError "rejected dataset_begin") ∧
    ([Event.datasetBegin none] = [Event.datasetBegin none] ∨
     [Event.datasetBegin none] = [Event.datasetBegin none, Event.featureBegin 0] ∨
     (∃ pre : List GeomEvent,
        [Event.datasetBegin none] =
          [Event.datasetBegin none, Event.featureBegin 0] ++ pre.map Event.geom ∧
        Event.featureEnd 0 ∉ [Event.datasetBegin none] ∧
        Event.datasetEnd ∉ [Event.datasetBegin none]) ∨
     [Event.datasetBegin none] = [Event.datasetBegin none, Event.featureBegin 0]
        ++ (Geom.mk [GeomEvent.geometryEnd] none).events.map Event.geom
        ++ [Event.featureEnd 0] ∨
     [Event.datasetBegin none] = [Event.datasetBegin none, Event.featureBegin 0]
        ++ (Geom.mk [GeomEvent.geometryEnd] none).events.map Event.geom
        ++ [Event.featureEnd 0, Event.datasetEnd]) :=
  to_svg_document_abort_on_error rejectingSink ⟨[GeomEvent.geometryEnd], none⟩ ()
    (GeozeroError.SinkError "rejected dataset_begin") [Event.datasetBegin none] rfl

/-- Claim C5: the bare-geometry entry point `to_svg` drives the sink with the
geometry's events only — for any sink the issued trace consists solely of
geometry events, with no dataset or feature bracketing calls — and the SVG
writer accepts this sequence and yields the finished artifact. -/
theorem to_svg_bare_geometry :
    (∀ (σ : Type) (s : Sink σ) (g : Geom) (st : σ),
      ∃ pre : List GeomEvent, (toSvgRun s g st).2 = pre.map Event.geom) ∧
    (∀ g : Geom, g.srcErr = none →
      (toSvgRun (svgWriter false) g []).2 = g.events.map Event.geom ∧
      ∃ out, to_svg g = .ok out) := by
  constructor
  · intro σ s g st
    obtain ⟨pre, hp⟩ := processGeom_trace_shape s g st []
    exact ⟨pre, by simpa using hp⟩
  · intro g h
    have hrun : toSvgRun (svgWriter false) g [] =
        (.ok (g.events.flatMap (fun e => svgEventBytes false (Event.geom e))),
         g.events.map Event.geom) := by
      unfold toSvgRun
      rw [processGeom_svgWriter false g [] [] h]
      simp
    refine ⟨by rw [hrun], ?_⟩
    obtain ⟨cs, hcs⟩ := utf8Decode?_ascii _ (flatMap_svgEventBytes_ascii false g.events)
    refine ⟨String.mk cs, ?_⟩
    have h2 : to_svg g = stringFromUtf8
        (g.events.flatMap (fun e => svgEventBytes false (Event.geom e))) := by
      unfold to_svg toSvgWith
      rw [hrun]
      rfl
    rw [h2]
    unfold stringFromUtf8
    rw [hcs]

/-- Witness for C5 at a concrete Point geometry. -/
theorem to_svg_bare_geometry_witness :
    (∃ pre : List GeomEvent,
      (toSvgRun rejectingSink ⟨[GeomEvent.ringBegin], none⟩ ()).2 = pre.map Event.geom) ∧
    ((toSvgRun (svgWriter false)
        ⟨[GeomEvent.geometryBegin "Point" 2 none, GeomEvent.coordinate [220, 10],
          GeomEvent.geometryEnd], none⟩ []).2 =
      (Geom.mk [GeomEvent.geometryBegin "Point" 2 none, GeomEvent.coordinate [220, 10],
          GeomEvent.geometryEnd] none).events.map Event.geom ∧
     ∃ out, to_svg ⟨[GeomEvent.geometryBegin "Point" 2 none,
        GeomEvent.coordinate [220, 10], GeomEvent.geometryEnd], none⟩ = .ok out) :=
  ⟨to_svg_bare_geometry.1 Unit rejectingSink ⟨[GeomEvent.ringBegin], none⟩ (),
   to_svg_bare_geometry.2
     ⟨[GeomEvent.geometryBegin "Point" 2 none, GeomEvent.coordinate [220, 10],
       GeomEvent.geometryEnd], none⟩ rfl⟩

/-- Claim C8: `to_svg_document` issues no dimension-setting call before (or
during) the walk — the `set_dimensions` call is commented out in the source —
for any sink and any geometry, also on failing walks. -/
theorem to_svg_document_no_dimension_call {σ : Type} (s : Sink σ) (g : Geom)
    (st : σ) (a b c d w h : Int) :
    Event.setDimensions a b c d w h ∉ (toSvgDocumentRun s g st).2 := by
  rcases toSvgDocumentRun_cases s g st with
    ⟨e, hr⟩ | ⟨e, hr⟩ | ⟨e, pre, hr⟩ | ⟨e, hr⟩ | ⟨e, hr⟩ | ⟨st2, hr⟩ <;>
    rw [hr] <;> simp

/-- Claim C9: the conversion entry points are deterministic functions of the
geometry value: each call allocates a fresh buffer and writer with the same
fixed configuration, so two invocations on the same geometry value return
identical results. -/
theorem to_svg_deterministic (g1 g2 : Geom) (he : g1.events = g2.events)
    (hs : g1.srcErr = g2.srcErr) :
    to_svg g1 = to_svg g2 ∧ to_svg_document g1 = to_svg_document g2 := by
  have hg : g1 = g2 := by
    cases g1
    cases g2
    simp_all
  rw [hg]
  exact ⟨rfl, rfl⟩

/-- Witness for C9 at a concrete Point geometry, as two invocations on the
same value. -/
theorem to_svg_deterministic_witness :
    to_svg ⟨[GeomEvent.coordinate [220, 10]], none⟩ =
      to_svg ⟨[GeomEvent.coordinate [220, 10]], none⟩ ∧
    to_svg_document ⟨[GeomEvent.coordinate [220, 10]], none⟩ =
      to_svg_document ⟨[GeomEvent.coordinate [220, 10]], none⟩ :=
  to_svg_deterministic ⟨[GeomEvent.coordinate [220, 10]], none⟩
    ⟨[GeomEvent.coordinate [220, 10]], none⟩ rfl rfl

/-- Claim C3: every text conversion entry point returns the text-encoding
error `GeozeroError::Geometry("Invalid UTF-8 encoding")` when the bytes the
walk produced are not valid UTF-8, and that error differs from the sink and
decode error kinds. -/
theorem utf8_failure_distinct_error_kind :
    (∀ (σ : Type) (s : Sink σ) (g : Geom) (st st2 : σ) (tr : List Event),
      toSvgRun s g st = (.ok st2, tr) → utf8Decode? (s.output st2) = none →
      toSvgWith s g st = .error (GeozeroError.Geometry "Invalid UTF-8 encoding")) ∧
    (∀ (σ : Type) (s : Sink σ) (g : Geom) (st st2 : σ) (tr : List Event),
      toSvgDocumentRun s g st = (.ok st2, tr) → utf8Decode? (s.output st2) = none →
      toSvgDocumentWith s g st = .error (GeozeroError.Geometry "Invalid UTF-8 encoding")) ∧
    (∀ (σ : Type) (s : Sink σ) (d : Datasource) (st st2 : σ) (tr : List Event),
      processRun s d st = (.ok st2, tr) → utf8Decode? (s.output st2) = none →
      processToSvgWith s d st = .error (GeozeroError.Geometry "Invalid UTF-8 encoding")) ∧
    (∀ (σ : Type) (s : Sink σ) (r : Reader) (st st2 : σ) (tr : List Event),
      readRun s r st = (.ok st2, tr) → utf8Decode? (s.output st2) = none →
      readAsSvgWith s r st = .error (GeozeroError.Geometry "Invalid UTF-8 encoding")) ∧
    (∀ m : String,
      GeozeroError.Geometry "Invalid UTF-8 encoding" ≠ GeozeroError.SinkError m ∧
      GeozeroError.Geometry "Invalid UTF-8 encoding" ≠ GeozeroError.DecodeError m) := by
  refine ⟨?_, ?_, ?_, ?_, ?_⟩
  · intro σ s g st st2 tr hrun hdec
    unfold toSvgWith
    rw [hrun]
    show stringFromUtf8 (s.output st2) = _
    unfold stringFromUtf8
    rw [hdec]
  · intro σ s g st st2 tr hrun hdec
    unfold toSvgDocumentWith
    rw [hrun]
    show stringFromUtf8 (s.output st2) = _
    unfold stringFromUtf8
    rw [hdec]
  · intro σ s d st st2 tr hrun hdec
    unfold processToSvgWith
    rw [hrun]
    show stringFromUtf8 (s.output st2) = _
    unfold stringFromUtf8
    rw [hdec]
  · intro σ s r st st2 tr hrun hdec
    unfold readAsSvgWith
    rw [hrun]
    show stringFromUtf8 (s.output st2) = _
    unfold stringFromUtf8
    rw [hdec]
  · intro m
    exact ⟨fun hc => GeozeroError.noConfusion hc, fun hc => GeozeroError.noConfusion hc⟩

/-- A sink that accepts every call but has accumulated a buffer that is not
valid UTF-8, to exhibit the text-encoding failure. -/
def invalidUtf8Sink : Sink Unit where
  datasetBegin := fun st _ => .ok st
  datasetEnd := fun st => .ok st
  featureBegin := fun st _ => .ok st
  featureEnd := fun st _ => .ok st
  setDimensions := fun st _ _ _ _ _ _ => .ok st
  processEvent := fun st _ => .ok st
  output := fun _ => [255]

/-- Witness for C3: the lone byte 0xFF is rejected by each entry point with
the text-encoding error. -/
theorem utf8_failure_distinct_error_kind_witness :
    toSvgWith invalidUtf8Sink ⟨[], none⟩ () =
      .error (GeozeroError.Geometry "Invalid UTF-8 encoding") ∧
    toSvgDocumentWith invalidUtf8Sink ⟨[], none⟩ () =
      .error (GeozeroError.Geometry "Invalid UTF-8 encoding") ∧
    processToSvgWith invalidUtf8Sink ⟨[], none⟩ () =
      .error (GeozeroError.Geometry "Invalid UTF-8 encoding") ∧
    readAsSvgWith invalidUtf8Sink ⟨[], none⟩ () =
      .error (GeozeroError.Geometry "Invalid UTF-8 encoding") ∧
    (GeozeroError.Geometry "Invalid UTF-8 encoding" ≠ GeozeroError.SinkError "s" ∧
     GeozeroError.Geometry "Invalid UTF-8 encoding" ≠ GeozeroError.DecodeError "s") :=
  ⟨utf8_failure_distinct_error_kind.1 Unit invalidUtf8Sink ⟨[], none⟩ () () [] rfl rfl,
   utf8_failure_distinct_error_kind.2.1 Unit invalidUtf8Sink ⟨[], none⟩ () ()
     [Event.datasetBegin none, Event.featureBegin 0, Event.featureEnd 0,
      Event.datasetEnd] rfl rfl,
   utf8_failure_distinct_error_kind.2.2.1 Unit invalidUtf8Sink ⟨[], none⟩ () () [] rfl rfl,
   utf8_failure_distinct_error_kind.2.2.2.1 Unit invalidUtf8Sink ⟨[], none⟩ () () [] rfl rfl,
   utf8_failure_distinct_error_kind.2.2.2.2 "s"⟩

/-- Claim C6: when the underlying walk fails, each conversion entry point
returns the walk's error value unchanged — no wrapping, substitution, or
augmentation. -/
theorem conversion_error_pass_through :
    (∀ (σ : Type) (s : Sink σ) (g : Geom) (st : σ) (e : GeozeroError),
      (toSvgRun s g st).1 = .error e → toSvgWith s g st = .error e) ∧
    (∀ (σ : Type) (s : Sink σ) (g : Geom) (st : σ) (e : GeozeroError),
      (toSvgDocumentRun s g st).1 = .error e → toSvgDocumentWith s g st = .error e) ∧
    (∀ (σ : Type) (s : Sink σ) (d : Datasource) (st : σ) (e : GeozeroError),
      (processRun s d st).1 = .error e → processToSvgWith s d st = .error e) ∧
    (∀ (σ : Type) (s : Sink σ) (r : Reader) (st : σ) (e : GeozeroError),
      (readRun s r st).1 = .error e → readAsSvgWith s r st = .error e) := by
  refine ⟨?_, ?_, ?_, ?_⟩
  · intro σ s g st e h
    unfold toSvgWith
    cases hrun : toSvgRun s g st with
    | mk r tr =>
      rw [hrun] at h
      simp only at h
      rw [h]
  · intro σ s g st e h
    unfold toSvgDocumentWith
    cases hrun : toSvgDocumentRun s g st with
    | mk r tr =>
      rw [hrun] at h
      simp only at h
      rw [h]
  · intro σ s d st e h
    unfold processToSvgWith
    cases hrun : processRun s d st with
    | mk r tr =>
      rw [hrun] at h
      simp only at h
      rw [h]
  · intro σ s r st e h
    unfold readAsSvgWith
    cases hrun : readRun s r st with
    | mk r2 tr =>
      rw [hrun] at h
      simp only at h
      rw [h]

/-- Witness for C6: a source that fails after emitting nothing has its
decode error passed through each entry point unchanged. -/
theorem conversion_error_pass_through_witness :
    toSvgWith rejectingSink ⟨[], some (GeozeroError.DecodeError "truncated")⟩ () =
      .error (GeozeroError.DecodeError "truncated") ∧
    toSvgDocumentWith rejectingSink ⟨[], none⟩ () =
      .error (GeozeroError.SinkError "rejected dataset_begin") ∧
    processToSvgWith rejectingSink ⟨[], some (GeozeroError.DecodeError "truncated")⟩ () =
      .error (GeozeroError.DecodeError "truncated") ∧
    readAsSvgWith rejectingSink ⟨[], some (GeozeroError.DecodeError "truncated")⟩ () =
      .error (GeozeroError.DecodeError "truncated") :=
  ⟨conversion_error_pass_through.1 Unit rejectingSink
     ⟨[], some (GeozeroError.DecodeError "truncated")⟩ ()
     (GeozeroError.DecodeError "truncated") rfl,
   conversion_error_pass_through.2.1 Unit rejectingSink ⟨[], none⟩ ()
     (GeozeroError.SinkError "rejected dataset_begin") rfl,
   conversion_error_pass_through.2.2.1 Unit rejectingSink
     ⟨[], some (GeozeroError.DecodeError "truncated")⟩ ()
     (GeozeroError.DecodeError "truncated") rfl,
   conversion_error_pass_through.2.2.2 Unit rejectingSink
     ⟨[], some (GeozeroError.DecodeError "truncated")⟩ ()
     (GeozeroError.DecodeError "truncated") rfl⟩

/-! ### GeoPackage decode round trip -/

/-- Well-formedness of a geometry value for the wire format: coordinate
components fit in 64 bits, point counts in 32 bits. -/
def GeomValue.wf : GeomValue → Prop
  | .point x y => x < 18446744073709551616 ∧ y < 18446744073709551616
  | .lineString pts => pts.length < 4294967296 ∧
      ∀ p ∈ pts, p.1 < 18446744073709551616 ∧ p.2 < 18446744073709551616

lemma rd32_le32 (n : Nat) (r : List Nat) :
    rd32 (le32 n ++ r) = some (n % 4294967296, r) := by
  simp only [le32, List.cons_append, List.nil_append, rd32, Option.some.injEq,
    Prod.mk.injEq]
  exact ⟨by omega, trivial⟩

lemma rd64_le64 (x : Nat) (r : List Nat) (hx : x < 18446744073709551616) :
    rd64 (le64 x ++ r) = some (x, r) := by
  simp only [le64, List.append_assoc, rd64, rd32_le32, Option.some.injEq,
    Prod.mk.injEq]
  exact ⟨by omega, trivial⟩

lemma rdPoints_flat (pts : List (Nat × Nat)) (r : List Nat)
    (h : ∀ p ∈ pts, p.1 < 18446744073709551616 ∧ p.2 < 18446744073709551616) :
    rdPoints pts.length (pts.flatMap (fun p => le64 p.1 ++ le64 p.2) ++ r) =
      some (pts, r) := by
  induction pts with
  | nil => simp [rdPoints]
  | cons p pts ih =>
    have hp := h p (List.mem_cons_self p pts)
    have hr := ih (fun q hq => h q (List.mem_cons_of_mem p hq))
    simp only [List.flatMap_cons, List.append_assoc, List.length_cons, rdPoints,
      rd64_le64 p.1 _ hp.1, rd64_le64 p.2 _ hp.2]
    rw [hr]

/-- Claim C7: for a byte cursor positioned at the start of one
envelope-prefixed geometry encoding, `process_gpkg_geom` succeeds and
consumes exactly the bytes of that one geometry, leaving the cursor
positioned immediately after them. -/
theorem process_gpkg_geom_consumes_exactly (srid : Nat) (g : GeomValue)
    (rest : List Nat) (h : g.wf) :
    process_gpkg_geom (gpkgEncode srid g ++ rest) = .ok (g, rest) := by
  cases g with
  | point x y =>
    obtain ⟨hx, hy⟩ := h
    simp [gpkgEncode, gpkgHeader, wkbBody, List.append_assoc, List.cons_append,
      List.nil_append, process_gpkg_geom, rd32_le32, rd64_le64 x _ hx,
      rd64_le64 y _ hy]
  | lineString pts =>
    obtain ⟨hlen, hpts⟩ := h
    simp [gpkgEncode, gpkgHeader, wkbBody, List.append_assoc, List.cons_append,
      List.nil_append, process_gpkg_geom, rd32_le32, Nat.mod_eq_of_lt hlen,
      rdPoints_flat pts rest hpts]

/-- Witness for C7: the encoding of a two-point line with SRID 4326 followed
by two stray bytes decodes to exactly that line, leaving the stray bytes. -/
theorem process_gpkg_geom_consumes_exactly_witness :
    (GeomValue.lineString [(220, 10), (300, 210)]).wf ∧
    process_gpkg_geom
        (gpkgEncode 4326 (GeomValue.lineString [(220, 10), (300, 210)]) ++ [9, 9]) =
      .ok (GeomValue.lineString [(220, 10), (300, 210)], [9, 9]) :=
  ⟨⟨by norm_num, by decide⟩,
   process_gpkg_geom_consumes_exactly 4326 (GeomValue.lineString [(220, 10), (300, 210)])
     [9, 9] ⟨by norm_num, by decide⟩⟩

/-- Claim C2: the sqlx `Decode` adapters decode the column blob through
`process_gpkg_geom` into a fully-built geometry value; on any decode failure
they return `sqlx::Error::Decode` carrying the underlying error's
description, and no geometry value is produced. -/
theorem geopackage_decode_adapter :
    (∀ (v : SqliteValue) (blob : List Nat) (g : GeomValue) (rest : List Nat),
      v.bytes = .ok blob → process_gpkg_geom blob = .ok (g, rest) →
      geoGeometryDecode v = .ok g ∧ geosGeometryDecode v = .ok g) ∧
    (∀ (v : SqliteValue) (blob : List Nat) (e : GeozeroError),
      v.bytes = .ok blob → process_gpkg_geom blob = .error e →
      geoGeometryDecode v = .error (SqlxError.Decode e.describe) ∧
      geosGeometryDecode v = .error (SqlxError.Decode e.describe)) := by
  constructor
  · intro v blob g rest hv hp
    simp [geoGeometryDecode, geosGeometryDecode, hv, hp]
  · intro v blob e hv hp
    simp [geoGeometryDecode, geosGeometryDecode, hv, hp]

/-- Witness for C2: a valid Point blob decodes to the built geometry; a blob
with a bad magic is surfaced as the wrapped column-decode failure. -/
theorem geopackage_decode_adapter_witness :
    geoGeometryDecode ⟨.ok (gpkgEncode 0 (GeomValue.point 3 4))⟩ =
      .ok (GeomValue.point 3 4) ∧
    geosGeometryDecode ⟨.ok (gpkgEncode 0 (GeomValue.point 3 4))⟩ =
      .ok (GeomValue.point 3 4) ∧
    geoGeometryDecode ⟨.ok [0]⟩ =
      .error (SqlxError.Decode
        (GeozeroError.DecodeError "invalid GeoPackage magic").describe) ∧
    geosGeometryDecode ⟨.ok [0]⟩ =
      .error (SqlxError.Decode
        (GeozeroError.DecodeError "invalid GeoPackage magic").describe) :=
  ⟨(geopackage_decode_adapter.1 ⟨.ok (gpkgEncode 0 (GeomValue.point 3 4))⟩
      (gpkgEncode 0 (GeomValue.point 3 4)) (GeomValue.point 3 4) [] rfl rfl).1,
   (geopackage_decode_adapter.1 ⟨.ok (gpkgEncode 0 (GeomValue.point 3 4))⟩
      (gpkgEncode 0 (GeomValue.point 3 4)) (GeomValue.point 3 4) [] rfl rfl).2,
   (geopackage_decode_adapter.2 ⟨.ok [0]⟩ [0]
      (GeozeroError.DecodeError "invalid GeoPackage magic") rfl rfl).1,
   (geopackage_decode_adapter.2 ⟨.ok [0]⟩ [0]
      (GeozeroError.DecodeError "invalid GeoPackage magic") rfl rfl).2⟩

/-- Claim C10: both GeoPackage `Geometry` wrappers register with the
database layer using exactly the column type of `Vec<u8>`, which is the
SQLite BLOB column type. -/
theorem geometry_type_info_is_blob :
    geoGeometryTypeInfo = vecU8TypeInfo ∧ geosGeometryTypeInfo = vecU8TypeInfo ∧
    vecU8TypeInfo = SqliteTypeInfo.blob :=
  ⟨rfl, rfl, rfl⟩

end Geozero
